import Mathlib

/-!
Verification development for the evergreen execution-orchestration core.

This file gives a shallow embedding of the Task Completion & Dispatch
Coordinator (service package: `markHostRunningTaskFinished`, `taskFinished`,
`getNextDistroTask`, `oldEndTask`) and of the Host Agent Gateway
(taskrunner package: `StartAgentOnHost`, `GetAgentRevision`,
`executableSubPath`, `prepRemoteHost`, `startAgentOnRemote`).

External collaborators (the document store, the distro queue dispatcher,
remote command execution, the cloud provider) are modelled as oracle
results carried in environment records: each call site in the Go code
reads the corresponding pre-decided outcome from the environment, exactly
as the code would observe it. Text messages are embedded verbatim from
the Go format strings, except that quote punctuation around interpolated
values is elided. Logging calls are not observable and are dropped,
except the pre/post revision discrepancy warning, which is reported as a
boolean so that it can be reasoned about.
-/

namespace Evergreen

/-- Host lifecycle status constants (evergreen package). -/
def hostDecommissioned : String := "decommissioned"

/-- Host quarantined status constant (evergreen package). -/
def hostQuarantined : String := "quarantined"

/-- Host running status constant (evergreen package). -/
def hostRunning : String := "running"

/-- Task status constant for a successful task (evergreen package). -/
def taskSucceeded : String := "success"

/-- Task status constant for a failed task (evergreen package). -/
def taskFailed : String := "failed"

/-- Task status constant for an undispatched (aborted) task (evergreen package). -/
def taskUndispatched : String := "undispatched"

/-- Requester constant for patch versions (evergreen package). -/
def patchVersionRequester : String := "patch_request"

/-- A distro: machine class carrying architecture and remote working directory. -/
structure Distro where
  id : String
  arch : String
  workDir : String
deriving Repr, DecidableEq

/-- A worker host document (model/host package), restricted to the fields the
core reads or writes: identifier, address string, user, lifecycle status,
currently running task, deployed agent revision, agent secret, distro. -/
structure Host where
  id : String
  host : String
  user : String
  status : String
  runningTask : String
  agentRevision : String
  secret : String
  distro : Distro
deriving Repr, DecidableEq

/-- A task document (model/task package), restricted to the fields the core
reads: identifier, recorded host, distro, dispatch secret, requester. -/
structure Task where
  id : String
  hostId : String
  distroId : String
  secret : String
  requester : String
deriving Repr, DecidableEq

/-- A distro task queue document (model package): ordered backlog of task ids. -/
structure TaskQueue where
  distroId : String
  queue : List String
deriving Repr, DecidableEq

/-- The response sent to the agent at the end of a task
(apimodels.TaskEndResponse). Go zero values: empty strings, false. -/
structure TaskEndResponse where
  message : String
  runNext : Bool
  taskId : String
  taskSecret : String
deriving Repr, DecidableEq

/-- The body of a task-end report (apimodels.TaskEndDetail). -/
structure TaskEndDetail where
  status : String
deriving Repr, DecidableEq

/-- host.ClearRunningTask: sets the running-task field to empty. -/
def clearRunningTask (h : Host) : Host :=
  { h with runningTask := "" }

/-- host.UpdateRunningTask: sets the running-task field to the given id. -/
def updateRunningTask (h : Host) (newTaskId : String) : Host :=
  { h with runningTask := newTaskId }

/-- markHostRunningTaskFinished: when the new task id is empty the code first
clears the running-task field, then (falling through) also updates it to the
empty id; for a non-empty id it only updates. Net effect on the document is
that the running-task field becomes the new id. Persistence errors are
swallowed by the code after logging and are outside this embedding. -/
def markHostRunningTaskFinished (h : Host) (newTaskId : String) : Host :=
  let h1 := if newTaskId = "" then clearRunningTask h else h
  updateRunningTask h1 newTaskId

/-- Oracle outcomes for the two persistence reads made by getNextDistroTask:
model.FindTaskQueueForDistro and taskrunner.DispatchTaskForHost. -/
structure QueueEnv where
  findTaskQueueResult : Except String (Option TaskQueue)
  dispatchResult : Except String (Option Task)
deriving Repr

/-- getNextDistroTask: looks up the distro queue for the finished task and, if
one exists, asks the dispatcher for the next task for this host. Error
messages follow the Go wrapping (wrapped message, colon, cause). -/
def getNextDistroTask (qe : QueueEnv) (currentTask : Task) (h : Host) :
    Except String (Option Task) :=
  match qe.findTaskQueueResult with
  | Except.error e =>
      Except.error ("Error locating distro queue (" ++ currentTask.distroId ++
        ") for task " ++ currentTask.id ++ ": " ++ e)
  | Except.ok none =>
      Except.error ("Nil task queue found for task " ++ currentTask.id ++
        "s distro queue - " ++ currentTask.distroId)
  | Except.ok (some _) =>
      match qe.dispatchResult with
      | Except.error e =>
          Except.error ("Error dequeuing task for host " ++ h.id ++ ": " ++ e)
      | Except.ok none => Except.ok none
      | Except.ok (some nextTask) => Except.ok (some nextTask)

/-- Oracle outcomes for the collaborator calls made by taskFinished:
host.FindOne(ByRunningTaskId), HostGateway.GetAgentRevision, and the queue
reads of getNextDistroTask. -/
structure DispatchEnv where
  findHostResult : Except String (Option Host)
  agentRevisionResult : Except String String
  queueEnv : QueueEnv
deriving Repr

/-- The observable outcome of taskFinished: the HTTP status code written, the
JSON response body, and the host document after any running-task mutation
(none when no host was found to mutate). -/
structure TaskFinishedResult where
  statusCode : Nat
  response : TaskEndResponse
  hostAfter : Option Host
deriving Repr, DecidableEq

/-- taskFinished: constructs the response for each markEnd request. Mirrors
the Go control flow: host lookup (error and nil cases), the decommissioned or
quarantined check, the agent revision fetch and drift comparison, and finally
the distro queue consultation. The fire-and-forget cost update goroutine has
no observable effect here. -/
def taskFinished (env : DispatchEnv) (t : Task) : TaskFinishedResult :=
  match env.findHostResult with
  | Except.error e =>
      { statusCode := 500
        response :=
          { message := "Error locating host for task " ++ t.id ++ " - set to " ++
              t.hostId ++ ": " ++ e
            runNext := false, taskId := "", taskSecret := "" }
        hostAfter := none }
  | Except.ok none =>
      { statusCode := 500
        response :=
          { message := "Error finding host running for task " ++ t.id ++
              " - set to " ++ t.hostId
            runNext := false, taskId := "", taskSecret := "" }
        hostAfter := none }
  | Except.ok (some h) =>
      if h.status = hostDecommissioned ∨ h.status = hostQuarantined then
        { statusCode := 200
          response :=
            { message := "Host " ++ t.hostId ++ " - running " ++ t.id ++
                " - is in state " ++ h.status ++ ". Agent will terminate"
              runNext := false, taskId := "", taskSecret := "" }
          hostAfter := some (markHostRunningTaskFinished h "") }
      else
        match env.agentRevisionResult with
        | Except.error e =>
            { statusCode := 500
              response := { message := e, runNext := false, taskId := "", taskSecret := "" }
              hostAfter := some (markHostRunningTaskFinished h "") }
        | Except.ok agentRevision =>
            if h.agentRevision ≠ agentRevision then
              { statusCode := 200
                response :=
                  { message := "Remote agent needs to be rebuilt"
                    runNext := false, taskId := "", taskSecret := "" }
                hostAfter := some (markHostRunningTaskFinished h "") }
            else
              match getNextDistroTask env.queueEnv t h with
              | Except.error e =>
                  { statusCode := 200
                    response := { message := e, runNext := false, taskId := "", taskSecret := "" }
                    hostAfter := some (markHostRunningTaskFinished h "") }
              | Except.ok none =>
                  { statusCode := 200
                    response :=
                      { message := "No next task on queue"
                        runNext := false, taskId := "", taskSecret := "" }
                    hostAfter := some (markHostRunningTaskFinished h "") }
              | Except.ok (some nextTask) =>
                  { statusCode := 200
                    response :=
                      { message := "Proceed with next task"
                        runNext := true, taskId := nextTask.id
                        taskSecret := nextTask.secret }
                    hostAfter := some (markHostRunningTaskFinished h nextTask.id) }

/-- A project reference document (external collaborator), restricted to the
field oldEndTask passes on. -/
structure ProjectRef where
  deactivatePrevious : Bool
deriving Repr, DecidableEq

/-- A parsed project configuration (external collaborator), placeholder. -/
structure Project where
  identifier : String
deriving Repr, DecidableEq

/-- The error value the service package uses when global lock acquisition
times out (ErrLockTimeout; defined in the service package outside the
visible files, value immaterial to the claims). -/
def errLockTimeout : String := "Timed out acquiring global lock"

/-- State-mutating operations oldEndTask may perform after taking the lock,
in program order: model.MarkEnd, alerts.RunTaskFailureTriggers,
model.SetActiveState, bookkeeping.UpdateExpectedDuration. -/
inductive Action where
  | markEnd
  | runTaskFailureTriggers
  | setActiveState
  | updateExpectedDuration
deriving Repr, DecidableEq

/-- Oracle outcomes for the collaborator calls made by oldEndTask:
util.ReadJSONInto, model.FindOneProjectRef, model.FindProject, the global
lock acquisition, model.MarkEnd, model.SetActiveState, and the environment
taskFinished runs in. -/
structure EndTaskEnv where
  readJSONResult : Except String TaskEndDetail
  projectRefResult : Except String (Option ProjectRef)
  projectResult : Except String Project
  lockAcquired : Bool
  markEndResult : Except String Unit
  setActiveStateResult : Except String Unit
  dispatchEnv : DispatchEnv
deriving Repr

/-- The observable outcome of oldEndTask: every (status code, message) write
made before any dispatch decision (the missing return after a
FindOneProjectRef error makes two writes possible there), whether lock
acquisition was attempted, the mutating actions performed in order, and the
taskFinished outcome when the handler reached the dispatch decision. -/
structure EndTaskResult where
  earlyWrites : List (Nat × String)
  lockAttempted : Bool
  actions : List Action
  dispatch : Option TaskFinishedResult
deriving Repr

/-- oldEndTask: the task-end request handler. Mirrors the Go control flow:
read the body, validate the status against the closed set, look up the
project ref (note: the error branch writes a 500 but does not return) and
project, acquire the global lock, mark the task finished, run failure
triggers for non-patch requesters, deactivate on abort, update bookkeeping,
and finally delegate to taskFinished. -/
def oldEndTask (env : EndTaskEnv) (t : Task) : EndTaskResult :=
  match env.readJSONResult with
  | Except.error e =>
      { earlyWrites := [(400, e)], lockAttempted := false, actions := [], dispatch := none }
  | Except.ok details =>
    if details.status ≠ taskSucceeded ∧ details.status ≠ taskFailed ∧
        details.status ≠ taskUndispatched then
      { earlyWrites := [(400, "Invalid end status " ++ details.status ++
          " for task " ++ t.id)]
        lockAttempted := false, actions := [], dispatch := none }
    else
      let prWrites : List (Nat × String) :=
        match env.projectRefResult with
        | Except.error e => [(500, e)]
        | Except.ok _ => []
      let projectRef : Option ProjectRef :=
        match env.projectRefResult with
        | Except.error _ => none
        | Except.ok o => o
      match projectRef with
      | none =>
          { earlyWrites := prWrites ++ [(404, "empty projectRef for task")]
            lockAttempted := false, actions := [], dispatch := none }
      | some _ =>
        match env.projectResult with
        | Except.error e =>
            { earlyWrites := prWrites ++ [(500, e)]
              lockAttempted := false, actions := [], dispatch := none }
        | Except.ok _ =>
          if ¬ env.lockAcquired then
            { earlyWrites := prWrites ++ [(500, errLockTimeout)]
              lockAttempted := true, actions := [], dispatch := none }
          else
            match env.markEndResult with
            | Except.error e =>
                { earlyWrites := prWrites ++ [(500,
                    "Error calling mark finish on task " ++ t.id ++ ": " ++ e)]
                  lockAttempted := true, actions := [Action.markEnd], dispatch := none }
            | Except.ok _ =>
              let acts1 := [Action.markEnd] ++
                (if t.requester ≠ patchVersionRequester then
                  [Action.runTaskFailureTriggers] else [])
              if details.status = taskUndispatched then
                match env.setActiveStateResult with
                | Except.error e =>
                    { earlyWrites := prWrites ++ [(500,
                        "Error deactivating task after abort: " ++ e)]
                      lockAttempted := true
                      actions := acts1 ++ [Action.setActiveState]
                      dispatch := none }
                | Except.ok _ =>
                    { earlyWrites := prWrites
                      lockAttempted := true
                      actions := acts1 ++ [Action.setActiveState]
                      dispatch := some (taskFinished env.dispatchEnv t) }
              else
                { earlyWrites := prWrites
                  lockAttempted := true
                  actions := acts1 ++ [Action.updateExpectedDuration]
                  dispatch := some (taskFinished env.dispatchEnv t) }

/-- Parsed SSH connection info (util.ParseSSHInfo result). -/
structure SSHInfo where
  hostname : String
  port : String
deriving Repr, DecidableEq

/-- Outcome of one run of a remote command under
util.RunFunctionWithTimeout: normal completion, the timeout sentinel
(util.ErrTimedOut), or a command error. -/
inductive RunResult where
  | ok
  | timedOut
  | err (msg : String)
deriving Repr, DecidableEq

/-- Go filepath.Join on two clean relative components. -/
def joinPath (a b : String) : String := a ++ "/" ++ b

/-- The fixed file name used for the remote log path (agentFile constant). -/
def agentFile : String := "agent"

/-- Go strings.HasPrefix, over the character lists of the two strings. -/
def goHasPrefix (s p : String) : Bool := p.data.isPrefixOf s.data

/-- The agent binary file name executableSubPath selects for a distro: the
windows builds carry an .exe suffix. -/
def mainName (d : Distro) : String :=
  if goHasPrefix d.arch "windows" then "main.exe" else "main"

/-- executableSubPath: looks up the distro by id (oracle result) and returns
the architecture-specific subdirectory joined with the binary name. -/
def executableSubPath (id : String) (lookup : Except String Distro) :
    Except String String :=
  match lookup with
  | Except.error e => Except.error ("error finding distro " ++ id ++ ": " ++ e)
  | Except.ok d => Except.ok (joinPath d.arch (mainName d))

/-- startAgentOnRemote: the path to the agent binary on the remote machine,
always the distro working directory joined with the fixed name main. -/
def pathToExecutable (hostObj : Host) : String :=
  joinPath hostObj.distro.workDir "main"

/-- startAgentOnRemote: the remote command line that launches the agent. -/
def remoteAgentCommand (apiURL : String) (hostObj : Host) : String :=
  pathToExecutable hostObj ++ " -api_server \"" ++ apiURL ++ "\" -host_id \"" ++
    hostObj.id ++ "\" -host_secret \"" ++ hostObj.secret ++ "\" -log_prefix \"" ++
    joinPath hostObj.distro.workDir agentFile ++ "\" -https_cert \"\""

/-- The string value GetAgentRevision yields at a use site: the Go function
returns the empty string together with the error when the version file read
fails, and the callers in prepRemoteHost keep that value after logging. -/
def revisionValue (r : Except String String) : String :=
  match r with
  | Except.error _ => ""
  | Except.ok v => v

/-- Oracle outcomes for the collaborator calls made by prepRemoteHost:
util.ParseSSHInfo, the mkdir remote command (with its captured output), the
distro lookup of executableSubPath, the two GetAgentRevision reads, and the
scp command (with its captured output). -/
structure GatewayEnv where
  parseSSHInfoResult : Except String SSHInfo
  mkdirRunResult : RunResult
  mkdirOutput : String
  distroLookupResult : Except String Distro
  preRevisionResult : Except String String
  scpRunResult : RunResult
  scpOutput : String
  postRevisionResult : Except String String
deriving Repr

/-- The remote operations prepRemoteHost may perform, in program order. -/
inductive GwAction where
  | mkdirRun
  | readPreRevision
  | scpRun
  | readPostRevision
deriving Repr, DecidableEq

/-- The observable outcome of prepRemoteHost: the returned revision or error,
the remote operations performed in order, and whether the pre/post revision
discrepancy warning fired. -/
structure PrepResult where
  result : Except String String
  gwActions : List GwAction
  warnedDiscrepancy : Bool
deriving Repr

/-- prepRemoteHost: parse the SSH info, create the remote working directory
(timeout and error branches return errors naming the directory step and
carrying the captured output), compute the executable subpath, read the
pre-scp agent revision (errors only logged), copy the binary, read the
post-scp revision (errors only logged), warn when the two revisions differ,
and return the pre-scp revision. -/
def prepRemoteHost (env : GatewayEnv) (hostObj : Host) : PrepResult :=
  match env.parseSSHInfoResult with
  | Except.error e =>
      { result := Except.error ("error parsing ssh info " ++ hostObj.host ++ ": " ++ e)
        gwActions := [], warnedDiscrepancy := false }
  | Except.ok _ =>
    match env.mkdirRunResult with
    | RunResult.timedOut =>
        { result := Except.error ("creating remote directories timed out: " ++
            env.mkdirOutput)
          gwActions := [GwAction.mkdirRun], warnedDiscrepancy := false }
    | RunResult.err e =>
        { result := Except.error ("error creating directories on remote machine (" ++
            env.mkdirOutput ++ "): " ++ e)
          gwActions := [GwAction.mkdirRun], warnedDiscrepancy := false }
    | RunResult.ok =>
      match executableSubPath hostObj.distro.id env.distroLookupResult with
      | Except.error e =>
          { result := Except.error ("error computing subpath to executable: " ++ e)
            gwActions := [GwAction.mkdirRun], warnedDiscrepancy := false }
      | Except.ok _ =>
        let preSCPAgentRevision := revisionValue env.preRevisionResult
        match env.scpRunResult with
        | RunResult.timedOut =>
            { result := Except.error ("scp-ing agent binary timed out: " ++
                env.scpOutput)
              gwActions := [GwAction.mkdirRun, GwAction.readPreRevision,
                GwAction.scpRun]
              warnedDiscrepancy := false }
        | RunResult.err e =>
            { result := Except.error ("error copying agent binary to remote machine (" ++
                e ++ "): " ++ env.scpOutput)
              gwActions := [GwAction.mkdirRun, GwAction.readPreRevision,
                GwAction.scpRun]
              warnedDiscrepancy := false }
        | RunResult.ok =>
          let postSCPAgentRevision := revisionValue env.postRevisionResult
          { result := Except.ok preSCPAgentRevision
            gwActions := [GwAction.mkdirRun, GwAction.readPreRevision,
              GwAction.scpRun, GwAction.readPostRevision]
            warnedDiscrepancy := preSCPAgentRevision ≠ postSCPAgentRevision }

/-- startAgentOnRemote: parse the SSH info again and run the launch command in
the background under the start timeout. -/
def startAgentOnRemote (parseResult : Except String SSHInfo)
    (runResult : RunResult) (output : String) (hostObj : Host) :
    Except String Unit :=
  match parseResult with
  | Except.error e =>
      Except.error ("error parsing ssh info " ++ hostObj.host ++ ": " ++ e)
  | Except.ok _ =>
    match runResult with
    | RunResult.timedOut => Except.error "starting agent timed out"
    | RunResult.err e =>
        Except.error ("error starting agent (" ++ hostObj.id ++ "): " ++
          output ++ ": " ++ e)
    | RunResult.ok => Except.ok ()

/-- Oracle outcomes for the collaborator calls made by StartAgentOnHost:
providers.GetCloudHost, GetSSHOptions, the prepRemoteHost environment,
host.CreateSecret (yielding the generated secret), the second ParseSSHInfo
and the launch command of startAgentOnRemote, and host.SetAgentRevision. -/
structure StartEnv where
  cloudHostResult : Except String Unit
  sshOptionsResult : Except String (List String)
  gatewayEnv : GatewayEnv
  createSecretResult : Except String String
  launchParseSSHInfoResult : Except String SSHInfo
  launchRunResult : RunResult
  launchOutput : String
  setAgentRevisionResult : Except String Unit
deriving Repr

/-- The observable outcome of StartAgentOnHost: the error or success, and the
agent revision recorded on the host document by SetAgentRevision (none when
the call was never reached or failed). -/
structure StartResult where
  result : Except String Unit
  recordedRevision : Option String
deriving Repr

/-- StartAgentOnHost: get cloud connection parameters and SSH options, prep
the remote host (keeping the returned revision), generate the host secret if
none exists, start the agent remotely, and finally record the revision
returned by prepRemoteHost as the host deployed agent revision. -/
def StartAgentOnHost (env : StartEnv) (hostObj : Host) : StartResult :=
  match env.cloudHostResult with
  | Except.error e =>
      { result := Except.error ("Failed to get cloud host for " ++ hostObj.id ++
          ": " ++ e)
        recordedRevision := none }
  | Except.ok _ =>
    match env.sshOptionsResult with
    | Except.error e =>
        { result := Except.error ("Error getting ssh options for host " ++
            hostObj.id ++ ": " ++ e)
          recordedRevision := none }
    | Except.ok _ =>
      match (prepRemoteHost env.gatewayEnv hostObj).result with
      | Except.error e =>
          { result := Except.error ("error prepping remote host " ++ hostObj.id ++
              ": " ++ e)
            recordedRevision := none }
      | Except.ok agentRevision =>
        let secretStep : Except String Host :=
          if hostObj.secret = "" then
            match env.createSecretResult with
            | Except.error e =>
                Except.error ("creating secret for " ++ hostObj.id ++ ": " ++ e)
            | Except.ok s => Except.ok { hostObj with secret := s }
          else Except.ok hostObj
        match secretStep with
        | Except.error e => { result := Except.error e, recordedRevision := none }
        | Except.ok hostObj2 =>
          match startAgentOnRemote env.launchParseSSHInfoResult
              env.launchRunResult env.launchOutput hostObj2 with
          | Except.error e =>
              { result := Except.error e, recordedRevision := none }
          | Except.ok _ =>
            match env.setAgentRevisionResult with
            | Except.error e =>
                { result := Except.error e, recordedRevision := none }
            | Except.ok _ =>
                { result := Except.ok (), recordedRevision := some agentRevision }

/-- Updating the running-task field is the net effect of
markHostRunningTaskFinished in both the clearing and the updating branch. -/
theorem markHostRunningTaskFinished_eq (h : Host) (newTaskId : String) :
    markHostRunningTaskFinished h newTaskId = { h with runningTask := newTaskId } := by
  unfold markHostRunningTaskFinished clearRunningTask updateRunningTask
  split <;> rfl

/-- C1: on a healthy host whose deployed agent revision matches the
authoritative one, taskFinished follows the dispatcher: a yielded task makes
the running-task field the id of that task and the response run-next with its id
and secret; an empty yield clears the running-task field and the response
carries the no-next-task message without the run-next flag. -/
theorem taskFinished_healthy_current_dispatch
    (env : DispatchEnv) (t : Task) (h : Host) (rev : String) (q : TaskQueue)
    (hfind : env.findHostResult = Except.ok (some h))
    (hstat : ¬ (h.status = hostDecommissioned ∨ h.status = hostQuarantined))
    (hrev : env.agentRevisionResult = Except.ok rev)
    (hmatch : h.agentRevision = rev)
    (hq : env.queueEnv.findTaskQueueResult = Except.ok (some q)) :
    (∀ nt : Task, env.queueEnv.dispatchResult = Except.ok (some nt) →
      taskFinished env t =
        { statusCode := 200
          response := { message := "Proceed with next task", runNext := true,
                        taskId := nt.id, taskSecret := nt.secret }
          hostAfter := some { h with runningTask := nt.id } }) ∧
    (env.queueEnv.dispatchResult = Except.ok none →
      taskFinished env t =
        { statusCode := 200
          response := { message := "No next task on queue", runNext := false,
                        taskId := "", taskSecret := "" }
          hostAfter := some { h with runningTask := "" } }) := by
  subst hmatch
  constructor
  · intro nt hnt
    simp [taskFinished, getNextDistroTask, hfind, hrev, hq, hnt, hstat,
      markHostRunningTaskFinished_eq]
  · intro hnone
    simp [taskFinished, getNextDistroTask, hfind, hrev, hq, hnone, hstat,
      markHostRunningTaskFinished_eq]

/-- Concrete host for exercising the dispatch path. -/
def hostC1 : Host :=
  { id := "H", host := "u@h:22", user := "u", status := hostRunning,
    runningTask := "T1", agentRevision := "r1", secret := "hs",
    distro := { id := "d", arch := "linux_64", workDir := "/data/evg" } }

/-- Concrete finished task for exercising the dispatch path. -/
def taskC1 : Task :=
  { id := "T1", hostId := "H", distroId := "d", secret := "ts",
    requester := "gitter_request" }

/-- Concrete next task yielded by the dispatcher. -/
def nextC1 : Task :=
  { id := "T2", hostId := "", distroId := "d", secret := "s2",
    requester := "gitter_request" }

/-- Concrete environment: healthy host, matching revision, queue yields T2. -/
def envC1 : DispatchEnv :=
  { findHostResult := Except.ok (some hostC1)
    agentRevisionResult := Except.ok "r1"
    queueEnv :=
      { findTaskQueueResult := Except.ok (some { distroId := "d", queue := ["T2"] })
        dispatchResult := Except.ok (some nextC1) } }

/-- C1 witness: the end-to-end scenario of the spec, at concrete inputs. -/
theorem taskFinished_healthy_current_dispatch_witness :
    taskFinished envC1 taskC1 =
      { statusCode := 200
        response := { message := "Proceed with next task", runNext := true,
                      taskId := "T2", taskSecret := "s2" }
        hostAfter := some { hostC1 with runningTask := "T2" } } :=
  (taskFinished_healthy_current_dispatch envC1 taskC1 hostC1 "r1"
    { distroId := "d", queue := ["T2"] } rfl (by decide) rfl rfl rfl).1 nextC1 rfl

/-- C2: when the deployed agent revision differs from the authoritative one,
taskFinished clears the running-task field and responds terminate (no
run-next, rebuild message), and the outcome does not depend on the queue
environment at all: the queue is never consulted on this path. -/
theorem taskFinished_stale_agent_terminates
    (env : DispatchEnv) (t : Task) (h : Host) (rev : String)
    (hfind : env.findHostResult = Except.ok (some h))
    (hstat : ¬ (h.status = hostDecommissioned ∨ h.status = hostQuarantined))
    (hrev : env.agentRevisionResult = Except.ok rev)
    (hdrift : h.agentRevision ≠ rev) :
    taskFinished env t =
      { statusCode := 200
        response := { message := "Remote agent needs to be rebuilt",
                      runNext := false, taskId := "", taskSecret := "" }
        hostAfter := some { h with runningTask := "" } } ∧
    (∀ qe : QueueEnv,
      taskFinished { env with queueEnv := qe } t = taskFinished env t) := by
  constructor
  · simp [taskFinished, hfind, hrev, hstat, hdrift, markHostRunningTaskFinished_eq]
  · intro qe
    simp [taskFinished, hfind, hrev, hstat, hdrift]

/-- Concrete environment: healthy host, authoritative revision r2 against
deployed r1, dispatcher would yield a task (showing queue irrelevance). -/
def envC2 : DispatchEnv :=
  { findHostResult := Except.ok (some hostC1)
    agentRevisionResult := Except.ok "r2"
    queueEnv :=
      { findTaskQueueResult := Except.ok (some { distroId := "d", queue := ["T2"] })
        dispatchResult := Except.ok (some nextC1) } }

/-- C2 witness: stale-agent scenario of the spec, at concrete inputs. -/
theorem taskFinished_stale_agent_terminates_witness :
    taskFinished envC2 taskC1 =
      { statusCode := 200
        response := { message := "Remote agent needs to be rebuilt",
                      runNext := false, taskId := "", taskSecret := "" }
        hostAfter := some { hostC1 with runningTask := "" } } :=
  (taskFinished_stale_agent_terminates envC2 taskC1 hostC1 "r2"
    rfl (by decide) rfl (by decide)).1

/-- C3: on a decommissioned or quarantined host, taskFinished clears the
running-task field (leaving it empty), responds terminate with the
explanatory state message, and its outcome depends neither on the agent
revision accessor nor on the queue environment: no further dispatch steps
are performed. -/
theorem taskFinished_unhealthy_host_terminates
    (env : DispatchEnv) (t : Task) (h : Host)
    (hfind : env.findHostResult = Except.ok (some h))
    (hstat : h.status = hostDecommissioned ∨ h.status = hostQuarantined) :
    taskFinished env t =
      { statusCode := 200
        response := { message := "Host " ++ t.hostId ++ " - running " ++ t.id ++
                        " - is in state " ++ h.status ++ ". Agent will terminate"
                      runNext := false, taskId := "", taskSecret := "" }
        hostAfter := some { h with runningTask := "" } } ∧
    ((taskFinished env t).hostAfter.map Host.runningTask = some "") ∧
    (∀ ar : Except String String, ∀ qe : QueueEnv,
      taskFinished { env with agentRevisionResult := ar, queueEnv := qe } t =
        taskFinished env t) := by
  refine ⟨?_, ?_, ?_⟩
  · simp [taskFinished, hfind, hstat, markHostRunningTaskFinished_eq]
  · simp [taskFinished, hfind, hstat, markHostRunningTaskFinished_eq]
  · intro ar qe
    simp [taskFinished, hfind, hstat]

/-- Concrete environment: quarantined host with a non-empty queue. -/
def envC3 : DispatchEnv :=
  { findHostResult := Except.ok (some { hostC1 with status := hostQuarantined })
    agentRevisionResult := Except.ok "r1"
    queueEnv :=
      { findTaskQueueResult := Except.ok (some { distroId := "d", queue := ["T2"] })
        dispatchResult := Except.ok (some nextC1) } }

/-- C3 witness: quarantined-host scenario at concrete inputs. -/
theorem taskFinished_unhealthy_host_terminates_witness :
    taskFinished envC3 taskC1 =
      { statusCode := 200
        response := { message := "Host H - running T1 - is in state " ++
                        hostQuarantined ++ ". Agent will terminate"
                      runNext := false, taskId := "", taskSecret := "" }
        hostAfter :=
          some { hostC1 with status := hostQuarantined, runningTask := "" } } :=
  (taskFinished_unhealthy_host_terminates envC3 taskC1
    { hostC1 with status := hostQuarantined } rfl (Or.inr rfl)).1

/-- Concrete environment whose only failure is the queue dispatch read:
healthy host, matching revision, queue lookup fine, dispatcher errors. -/
def envC5 : DispatchEnv :=
  { findHostResult := Except.ok (some hostC1)
    agentRevisionResult := Except.ok "r1"
    queueEnv :=
      { findTaskQueueResult := Except.ok (some { distroId := "d", queue := ["T2"] })
        dispatchResult := Except.error "database connection reset" } }

/-- C5 counterexample: an error while querying the distro queue is answered
with HTTP status 200, not the internal error status 500 the claim states for
every error of this group. -/
theorem taskFinished_queue_error_not_internal :
    (taskFinished envC5 taskC1).statusCode = 200 ∧
    ¬ (taskFinished envC5 taskC1).statusCode = 500 := by
  exact ⟨rfl, by decide⟩

/-- C5 amended: a host-lookup error or a missing host is answered with HTTP
500 and no host is mutated; an agent-revision error is answered with HTTP 500
carrying the cause, after clearing the running-task field; a queue error is
answered with the cause in the message but with HTTP 200, also after
clearing the running-task field. -/
theorem taskFinished_error_paths (env : DispatchEnv) (t : Task) :
    (∀ e : String, env.findHostResult = Except.error e →
      taskFinished env t =
        { statusCode := 500
          response := { message := "Error locating host for task " ++ t.id ++
                          " - set to " ++ t.hostId ++ ": " ++ e
                        runNext := false, taskId := "", taskSecret := "" }
          hostAfter := none }) ∧
    (env.findHostResult = Except.ok none →
      taskFinished env t =
        { statusCode := 500
          response := { message := "Error finding host running for task " ++
                          t.id ++ " - set to " ++ t.hostId
                        runNext := false, taskId := "", taskSecret := "" }
          hostAfter := none }) ∧
    (∀ h : Host, ∀ e : String, env.findHostResult = Except.ok (some h) →
      ¬ (h.status = hostDecommissioned ∨ h.status = hostQuarantined) →
      env.agentRevisionResult = Except.error e →
      taskFinished env t =
        { statusCode := 500
          response := { message := e, runNext := false, taskId := "",
                        taskSecret := "" }
          hostAfter := some { h with runningTask := "" } }) ∧
    (∀ h : Host, ∀ e : String, env.findHostResult = Except.ok (some h) →
      ¬ (h.status = hostDecommissioned ∨ h.status = hostQuarantined) →
      env.agentRevisionResult = Except.ok h.agentRevision →
      getNextDistroTask env.queueEnv t h = Except.error e →
      taskFinished env t =
        { statusCode := 200
          response := { message := e, runNext := false, taskId := "",
                        taskSecret := "" }
          hostAfter := some { h with runningTask := "" } }) := by
  refine ⟨?_, ?_, ?_, ?_⟩
  · intro e hfind
    simp [taskFinished, hfind]
  · intro hfind
    simp [taskFinished, hfind]
  · intro h e hfind hstat hrev
    simp [taskFinished, hfind, hstat, hrev, markHostRunningTaskFinished_eq]
  · intro h e hfind hstat hrev hqueue
    simp [taskFinished, hfind, hstat, hrev, hqueue, markHostRunningTaskFinished_eq]

/-- C5 witness: the queue-error conjunct, at the counterexample input. -/
theorem taskFinished_error_paths_witness :
    taskFinished envC5 taskC1 =
      { statusCode := 200
        response := { message := "Error dequeuing task for host H: " ++
                        "database connection reset"
                      runNext := false, taskId := "", taskSecret := "" }
        hostAfter := some { hostC1 with runningTask := "" } } :=
  (taskFinished_error_paths envC5 taskC1).2.2.2 hostC1
    ("Error dequeuing task for host H: " ++ "database connection reset")
    rfl (by decide) rfl rfl

/-- C7: when global lock acquisition fails in the task-end handler, the
request is answered with a 500 carrying the lock-timeout error and nothing
is mutated: no mark-end, no triggers, no deactivation, no bookkeeping, and
no dispatch decision. -/
theorem oldEndTask_lock_timeout_aborts
    (env : EndTaskEnv) (t : Task) (d : TaskEndDetail) (pr : ProjectRef)
    (p : Project)
    (hread : env.readJSONResult = Except.ok d)
    (hvalid : d.status = taskSucceeded ∨ d.status = taskFailed ∨
      d.status = taskUndispatched)
    (hpr : env.projectRefResult = Except.ok (some pr))
    (hp : env.projectResult = Except.ok p)
    (hlock : env.lockAcquired = false) :
    oldEndTask env t =
      { earlyWrites := [(500, errLockTimeout)], lockAttempted := true,
        actions := [], dispatch := none } := by
  have hv : ¬ (d.status ≠ taskSucceeded ∧ d.status ≠ taskFailed ∧
      d.status ≠ taskUndispatched) := by
    rcases hvalid with h1 | h1 | h1 <;> simp [h1]
  simp [oldEndTask, hread, hv, hpr, hp, hlock]

/-- Concrete task-end environment: valid status, project found, lock times
out, everything downstream would succeed. -/
def envC7 : EndTaskEnv :=
  { readJSONResult := Except.ok { status := taskSucceeded }
    projectRefResult := Except.ok (some { deactivatePrevious := true })
    projectResult := Except.ok { identifier := "p" }
    lockAcquired := false
    markEndResult := Except.ok ()
    setActiveStateResult := Except.ok ()
    dispatchEnv := envC1 }

/-- C7 witness: the lock-timeout abort at concrete inputs. -/
theorem oldEndTask_lock_timeout_aborts_witness :
    oldEndTask envC7 taskC1 =
      { earlyWrites := [(500, errLockTimeout)], lockAttempted := true,
        actions := [], dispatch := none } :=
  oldEndTask_lock_timeout_aborts envC7 taskC1 { status := taskSucceeded }
    { deactivatePrevious := true } { identifier := "p" } rfl (Or.inl rfl)
    rfl rfl rfl

/-- C8: a task-end report whose status is outside the closed set is rejected
with a 400 before the lock is attempted and before any mutation or dispatch
decision. -/
theorem oldEndTask_invalid_status_rejected
    (env : EndTaskEnv) (t : Task) (d : TaskEndDetail)
    (hread : env.readJSONResult = Except.ok d)
    (h1 : d.status ≠ taskSucceeded) (h2 : d.status ≠ taskFailed)
    (h3 : d.status ≠ taskUndispatched) :
    oldEndTask env t =
      { earlyWrites := [(400, "Invalid end status " ++ d.status ++
          " for task " ++ t.id)]
        lockAttempted := false, actions := [], dispatch := none } := by
  simp [oldEndTask, hread, h1, h2, h3]

/-- Concrete task-end environment carrying an unknown status, with the lock
available and everything downstream healthy. -/
def envC8 : EndTaskEnv :=
  { envC7 with readJSONResult := Except.ok { status := "exploded" }
               lockAcquired := true }

/-- C8 witness: the invalid-status rejection at concrete inputs. -/
theorem oldEndTask_invalid_status_rejected_witness :
    oldEndTask envC8 taskC1 =
      { earlyWrites := [(400, "Invalid end status " ++ "exploded" ++
          " for task " ++ taskC1.id)]
        lockAttempted := false, actions := [], dispatch := none } :=
  oldEndTask_invalid_status_rejected envC8 taskC1 { status := "exploded" }
    rfl (by decide) (by decide) (by decide)

/-- C4: when the pre-transfer and post-transfer agent revision reads differ,
prepRemoteHost returns the pre-transfer revision after raising the
discrepancy warning, and a successful StartAgentOnHost records exactly that
pre-transfer revision, never the post-transfer one. -/
theorem startAgent_records_pre_transfer_revision
    (senv : StartEnv) (hostObj : Host) (info info2 : SSHInfo)
    (opts : List String) (d : Distro) (pre post : String)
    (hcloud : senv.cloudHostResult = Except.ok ())
    (hssh : senv.sshOptionsResult = Except.ok opts)
    (hparse : senv.gatewayEnv.parseSSHInfoResult = Except.ok info)
    (hmkdir : senv.gatewayEnv.mkdirRunResult = RunResult.ok)
    (hdistro : senv.gatewayEnv.distroLookupResult = Except.ok d)
    (hpre : senv.gatewayEnv.preRevisionResult = Except.ok pre)
    (hscp : senv.gatewayEnv.scpRunResult = RunResult.ok)
    (hpost : senv.gatewayEnv.postRevisionResult = Except.ok post)
    (hdrift : pre ≠ post)
    (hsecret : hostObj.secret ≠ "")
    (hparse2 : senv.launchParseSSHInfoResult = Except.ok info2)
    (hlaunch : senv.launchRunResult = RunResult.ok)
    (hset : senv.setAgentRevisionResult = Except.ok ()) :
    (prepRemoteHost senv.gatewayEnv hostObj).result = Except.ok pre ∧
    (prepRemoteHost senv.gatewayEnv hostObj).warnedDiscrepancy = true ∧
    (StartAgentOnHost senv hostObj).recordedRevision = some pre ∧
    (StartAgentOnHost senv hostObj).recordedRevision ≠ some post := by
  have hrec : (StartAgentOnHost senv hostObj).recordedRevision = some pre := by
    simp [StartAgentOnHost, prepRemoteHost, executableSubPath, revisionValue,
      startAgentOnRemote, hcloud, hssh, hparse, hmkdir, hdistro, hpre, hscp,
      hpost, hsecret, hparse2, hlaunch, hset]
  refine ⟨?_, ?_, hrec, ?_⟩
  · simp [prepRemoteHost, executableSubPath, revisionValue, hparse, hmkdir,
      hdistro, hpre, hscp]
  · simp [prepRemoteHost, executableSubPath, revisionValue, hparse, hmkdir,
      hdistro, hpre, hscp, hpost, hdrift]
  · rw [hrec]
    simp [hdrift]

/-- Concrete gateway environment: every remote step succeeds, the agent
revision is r1 before the transfer and r2 after it. -/
def gwEnvC4 : GatewayEnv :=
  { parseSSHInfoResult := Except.ok { hostname := "h", port := "22" }
    mkdirRunResult := RunResult.ok
    mkdirOutput := ""
    distroLookupResult := Except.ok { id := "d", arch := "linux_64",
                                      workDir := "/data/evg" }
    preRevisionResult := Except.ok "r1"
    scpRunResult := RunResult.ok
    scpOutput := ""
    postRevisionResult := Except.ok "r2" }

/-- Concrete start environment around gwEnvC4 with every other step healthy. -/
def startEnvC4 : StartEnv :=
  { cloudHostResult := Except.ok ()
    sshOptionsResult := Except.ok ["-o", "StrictHostKeyChecking=no"]
    gatewayEnv := gwEnvC4
    createSecretResult := Except.ok "generated"
    launchParseSSHInfoResult := Except.ok { hostname := "h", port := "22" }
    launchRunResult := RunResult.ok
    launchOutput := ""
    setAgentRevisionResult := Except.ok () }

/-- C4 witness: the mid-transfer rebuild scenario at concrete inputs. -/
theorem startAgent_records_pre_transfer_revision_witness :
    (prepRemoteHost gwEnvC4 hostC1).result = Except.ok "r1" ∧
    (prepRemoteHost gwEnvC4 hostC1).warnedDiscrepancy = true ∧
    (StartAgentOnHost startEnvC4 hostC1).recordedRevision = some "r1" ∧
    (StartAgentOnHost startEnvC4 hostC1).recordedRevision ≠ some "r2" :=
  startAgent_records_pre_transfer_revision startEnvC4 hostC1
    { hostname := "h", port := "22" } { hostname := "h", port := "22" }
    ["-o", "StrictHostKeyChecking=no"]
    { id := "d", arch := "linux_64", workDir := "/data/evg" } "r1" "r2"
    rfl rfl rfl rfl rfl rfl rfl rfl (by decide) (by decide) rfl rfl rfl

/-- C6: when the directory-preparation command times out or fails,
prepRemoteHost stops with an error naming the directory step and carrying
the captured output, and the transfer step is never reached. -/
theorem prep_mkdir_failure_no_transfer
    (env : GatewayEnv) (hostObj : Host) (info : SSHInfo)
    (hparse : env.parseSSHInfoResult = Except.ok info) :
    (env.mkdirRunResult = RunResult.timedOut →
      prepRemoteHost env hostObj =
        { result := Except.error ("creating remote directories timed out: " ++
            env.mkdirOutput)
          gwActions := [GwAction.mkdirRun], warnedDiscrepancy := false } ∧
      GwAction.scpRun ∉ (prepRemoteHost env hostObj).gwActions) ∧
    (∀ e : String, env.mkdirRunResult = RunResult.err e →
      prepRemoteHost env hostObj =
        { result := Except.error ("error creating directories on remote machine (" ++
            env.mkdirOutput ++ "): " ++ e)
          gwActions := [GwAction.mkdirRun], warnedDiscrepancy := false } ∧
      GwAction.scpRun ∉ (prepRemoteHost env hostObj).gwActions) := by
  constructor
  · intro htime
    constructor
    · simp [prepRemoteHost, hparse, htime]
    · simp [prepRemoteHost, hparse, htime]
  · intro e herr
    constructor
    · simp [prepRemoteHost, hparse, herr]
    · simp [prepRemoteHost, hparse, herr]

/-- Concrete gateway environment whose directory step times out with noisy
captured output; the remaining oracle outcomes are irrelevant. -/
def gwEnvC6 : GatewayEnv :=
  { gwEnvC4 with mkdirRunResult := RunResult.timedOut
                 mkdirOutput := "mkdir: hung" }

/-- C6 witness: the directory-step timeout at concrete inputs. -/
theorem prep_mkdir_failure_no_transfer_witness :
    prepRemoteHost gwEnvC6 hostC1 =
      { result := Except.error ("creating remote directories timed out: " ++
          "mkdir: hung")
        gwActions := [GwAction.mkdirRun], warnedDiscrepancy := false } ∧
    GwAction.scpRun ∉ (prepRemoteHost gwEnvC6 hostC1).gwActions :=
  (prep_mkdir_failure_no_transfer gwEnvC6 hostC1
    { hostname := "h", port := "22" } rfl).1 rfl

/-- C9: when the pre-transfer agent revision read fails, provisioning
continues (the transfer still runs), prepRemoteHost returns the empty string
as the revision, and a successful StartAgentOnHost records the empty string
as the deployed agent revision. -/
theorem startAgent_records_empty_revision_on_read_error
    (senv : StartEnv) (hostObj : Host) (info info2 : SSHInfo)
    (opts : List String) (d : Distro) (e : String)
    (hcloud : senv.cloudHostResult = Except.ok ())
    (hssh : senv.sshOptionsResult = Except.ok opts)
    (hparse : senv.gatewayEnv.parseSSHInfoResult = Except.ok info)
    (hmkdir : senv.gatewayEnv.mkdirRunResult = RunResult.ok)
    (hdistro : senv.gatewayEnv.distroLookupResult = Except.ok d)
    (hpre : senv.gatewayEnv.preRevisionResult = Except.error e)
    (hscp : senv.gatewayEnv.scpRunResult = RunResult.ok)
    (hsecret : hostObj.secret ≠ "")
    (hparse2 : senv.launchParseSSHInfoResult = Except.ok info2)
    (hlaunch : senv.launchRunResult = RunResult.ok)
    (hset : senv.setAgentRevisionResult = Except.ok ()) :
    (prepRemoteHost senv.gatewayEnv hostObj).result = Except.ok "" ∧
    GwAction.scpRun ∈ (prepRemoteHost senv.gatewayEnv hostObj).gwActions ∧
    (StartAgentOnHost senv hostObj).recordedRevision = some "" := by
  refine ⟨?_, ?_, ?_⟩
  · simp [prepRemoteHost, executableSubPath, revisionValue, hparse, hmkdir,
      hdistro, hpre, hscp]
  · simp [prepRemoteHost, executableSubPath, revisionValue, hparse, hmkdir,
      hdistro, hpre, hscp]
  · simp [StartAgentOnHost, prepRemoteHost, executableSubPath, revisionValue,
      startAgentOnRemote, hcloud, hssh, hparse, hmkdir, hdistro, hpre, hscp,
      hsecret, hparse2, hlaunch, hset]

/-- Concrete start environment where only the pre-transfer revision read
fails. -/
def startEnvC9 : StartEnv :=
  { startEnvC4 with gatewayEnv :=
      { gwEnvC4 with preRevisionResult := Except.error "version file missing" } }

/-- C9 witness: the failed revision read at concrete inputs. -/
theorem startAgent_records_empty_revision_on_read_error_witness :
    (prepRemoteHost startEnvC9.gatewayEnv hostC1).result = Except.ok "" ∧
    GwAction.scpRun ∈ (prepRemoteHost startEnvC9.gatewayEnv hostC1).gwActions ∧
    (StartAgentOnHost startEnvC9 hostC1).recordedRevision = some "" :=
  startAgent_records_empty_revision_on_read_error startEnvC9 hostC1
    { hostname := "h", port := "22" } { hostname := "h", port := "22" }
    ["-o", "StrictHostKeyChecking=no"]
    { id := "d", arch := "linux_64", workDir := "/data/evg" }
    "version file missing" rfl rfl rfl rfl rfl rfl rfl (by decide) rfl rfl rfl

/-- Two joins with the same left component differ when the right components
have different lengths. -/
theorem joinPath_right_ne (w : String) {a b : String}
    (hab : a.length ≠ b.length) : joinPath w a ≠ joinPath w b := by
  intro hEq
  apply hab
  have hl := congrArg String.length hEq
  simp only [joinPath, String.length_append] at hl
  omega

/-- C10: for a distro whose architecture begins with windows, the transfer
step selects the binary name main.exe while the launch command always uses
the working directory joined with the fixed name main, so the launched path
never names the transferred binary. -/
theorem windows_transfer_launch_mismatch
    (hostObj : Host)
    (hwin : goHasPrefix hostObj.distro.arch "windows" = true) :
    mainName hostObj.distro = "main.exe" ∧
    pathToExecutable hostObj = joinPath hostObj.distro.workDir "main" ∧
    joinPath hostObj.distro.workDir (mainName hostObj.distro) ≠
      pathToExecutable hostObj := by
  have hm : mainName hostObj.distro = "main.exe" := by simp [mainName, hwin]
  refine ⟨hm, rfl, ?_⟩
  rw [hm]
  unfold pathToExecutable
  exact joinPath_right_ne _ (by decide)

/-- Concrete windows host: the distro architecture begins with windows. -/
def hostC10 : Host :=
  { hostC1 with distro := { id := "w", arch := "windows_64",
                            workDir := "C:/evg" } }

/-- C10 witness: the windows mismatch at concrete inputs. -/
theorem windows_transfer_launch_mismatch_witness :
    mainName hostC10.distro = "main.exe" ∧
    pathToExecutable hostC10 = joinPath hostC10.distro.workDir "main" ∧
    joinPath hostC10.distro.workDir (mainName hostC10.distro) ≠
      pathToExecutable hostC10 :=
  windows_transfer_launch_mismatch hostC10 (by decide)

end Evergreen
